import Mathlib

/-!
# mesos-kill: a shallow embedding of `kill.go`

The program is a linear command-line flow: resolve the master and the name
pattern (`parseArgs`), fetch and walk the state document
(`findMatchingFrameworks`), then prompt for every match
(`proposeKillFrameworks`, `proposeKillFramework`) and post a teardown
(`killFramework`).

Everything the program obtains from outside (the argument vector, the process
environment, the regular-expression library, the HTTP client, the JSON decoder
and standard input) is a field of `Env`.  Everything the program does to the
outside is recorded, in order, in the `trace` of a `World`.
-/

namespace MesosKill

/-! ## Data model -/

/-- A Go `error`, represented by the text of `err.Error()`. -/
abbrev Error := String

/-- A Go string that is handled byte by byte (`len(text)`, `text[0]`). -/
abbrev Bytes := List UInt8

/-- The values `encoding/json` stores in an `interface{}`: `nil`, `bool`,
`float64` (kept as its 64-bit pattern, never inspected by the program),
`string`, `[]interface{}` and `map[string]interface{}`. -/
inductive JSON where
  | null
  | bool (b : Bool)
  | number (bits : Nat)
  | string (s : String)
  | array (elems : List JSON)
  | object (fields : List (String × JSON))

/-- The text the `%T` verb of `fmt` prints for a decoded JSON value. -/
def goTypeName : JSON → String
  | .null => "<nil>"
  | .bool _ => "bool"
  | .number _ => "float64"
  | .string _ => "string"
  | .array _ => "[]interface \x7b\x7d"
  | .object _ => "map[string]interface \x7b\x7d"

/-- Indexing a `map[string]interface{}`: a key that is absent yields the nil
interface, the same value a JSON `null` decodes to. -/
def mapIndex (m : List (String × JSON)) (key : String) : JSON :=
  (m.lookup key).getD JSON.null

/-- The type assertion `v.(string)`; `none` is `ok == false`. -/
def assertString : JSON → Option String
  | .string s => some s
  | _ => none

/-- The type assertion `v.([]interface{})`; `none` is `ok == false`. -/
def assertArray : JSON → Option (List JSON)
  | .array xs => some xs
  | _ => none

/-- The type assertion `v.(map[string]interface{})`; `none` is `ok == false`. -/
def assertMap : JSON → Option (List (String × JSON))
  | .object m => some m
  | _ => none

/-- The `Framework` struct of `kill.go`. -/
structure Framework where
  Name : String
  ID : String
  Tasks : Nat
  deriving DecidableEq, Repr

/-- What the program does to the outside world. -/
inductive Event where
  /-- The call `http.Get(url)` -/
  | get (url : String)
  /-- The call `http.Post(url, contentType, body)` -/
  | post (url : String) (contentType : String) (body : String)
  /-- text written to standard output -/
  | stdout (text : String)
  /-- one `ReadString('\n')` on a fresh `bufio.Reader` over standard input -/
  | readString
  deriving DecidableEq, Repr

/-- A compiled `*regexp.Regexp`, as far as the program uses it. -/
structure Regexp where
  MatchString : String → Bool

/-- An `*http.Response`, as far as the program uses it: what
`ioutil.ReadAll(rawResponse.Body)` returns. -/
structure Response where
  Body : Except Error Bytes

/-- The outside world the program depends on. -/
structure Env where
  /-- The argument vector `os.Args` -/
  osArgs : List String
  /-- the process environment: `none` for a variable that is not set -/
  lookupEnv : String → Option String
  /-- The function `regexp.Compile` -/
  regexpCompile : String → Except Error Regexp
  /-- The function `http.Get` -/
  httpGet : String → Except Error Response
  /-- The function `json.Unmarshal` into a `map[string]interface{}` -/
  jsonUnmarshal : Bytes → Except Error (List (String × JSON))
  /-- the transport outcome of `http.Post(url, contentType, body)`, which may
  depend on everything that happened before -/
  httpPost : List Event → String → String → String → Option Error
  /-- the text returned by the `k`-th `ReadString('\n')` on standard input
  (its error is discarded by the program); empty once input is exhausted -/
  stdinReadString : Nat → Bytes

/-- The observable state: the events so far, oldest first, and the number of
reads made from standard input. -/
structure World where
  trace : List Event
  reads : Nat
  deriving DecidableEq, Repr

/-- How a call ends. -/
inductive Outcome (α : Type) where
  /-- the function returned `a` -/
  | ret (a : α) (w : World)
  /-- the process ended through `os.Exit(status)` -/
  | exit (status : Nat) (w : World)
  /-- a run-time panic (index out of range) -/
  | panic (w : World)
  /-- the call has not ended within the given number of prompts -/
  | running (w : World)
  deriving DecidableEq, Repr

/-! ## The program -/

def defaultMasterLocation : String := "127.0.0.1:5050"

def mesosMasterEnv : String := "MESOS_MASTER"

/-- Append an event to the trace. -/
def World.emit (w : World) (e : Event) : World :=
  { w with trace := w.trace ++ [e] }

/-- Writing to standard output (`fmt.Print*`). -/
def World.print (w : World) (text : String) : World :=
  w.emit (Event.stdout text)

/-- The function `os.Getenv`: the value, empty when the variable is not set. -/
def osGetenv (env : Env) (key : String) : String :=
  (env.lookupEnv key).getD ""

/-- The function `printUsageAndExit` of `kill.go`. -/
def printUsageAndExit {α : Type} (status : Nat) (w : World) : Outcome α :=
  let w := w.print "Usage: mesos-kill [<master>] <framework-name-regex>\n"
  let w := w.print "\n"
  let w := w.print ("<master>: host:port pair for Mesos Master node. If not specified will check "
    ++ mesosMasterEnv ++ " env and fall back to " ++ defaultMasterLocation ++ " if not set\n")
  let w := w.print "<framework-name-regex>: name or regular expression of framework to kill. It is ok to match multiple frameworks\n"
  Outcome.exit status w

/-- The function `parseArgs` of `kill.go`.  Indexing `args` out of range panics. -/
def parseArgs (env : Env) (w : World) : Outcome (String × String) :=
  let args := env.osArgs
  if args.length = 1 then
    printUsageAndExit 1 w
  else if args.length = 2 then
    let master := osGetenv env mesosMasterEnv
    let master := if master = "" then defaultMasterLocation else master
    match args[1]? with
    | some a1 => Outcome.ret (master, a1) w
    | none => Outcome.panic w
  else
    match args[1]?, args[2]? with
    | some a1, some a2 => Outcome.ret (a1, a2) w
    | _, _ => Outcome.panic w

/-- The `for _, framework := range frameworks` loop of `findMatchingFrameworks`
with `matchingFrameworks` as accumulator; the result is the pair the function
returns (`none` is the nil slice, `none` is the nil error). -/
def rangeFrameworks (frameworkRegex : Regexp) :
    List JSON → List Framework → Option (List Framework) × Option Error
  | [], matchingFrameworks => (some matchingFrameworks, none)
  | framework :: rest, matchingFrameworks =>
    match assertMap framework with
    | none => (none, some ("framework node should be map[string]interface\x7b\x7d, actual "
        ++ goTypeName framework))
    | some frameworkMap =>
      match assertString (mapIndex frameworkMap "name") with
      | none => (none, some ("framework name node should be string, actual "
          ++ goTypeName (mapIndex frameworkMap "name")))
      | some name =>
        match assertString (mapIndex frameworkMap "id") with
        | none => (none, some ("framework id node should be string, actual "
            ++ goTypeName (mapIndex frameworkMap "id")))
        | some id =>
          match assertArray (mapIndex frameworkMap "tasks") with
          | none => (none, some ("framework tasks node should be []interface\x7b\x7d, actual "
              ++ goTypeName (mapIndex frameworkMap "tasks")))
          | some tasks =>
            if frameworkRegex.MatchString name then
              rangeFrameworks frameworkRegex rest
                (matchingFrameworks ++ [{ Name := name, ID := id, Tasks := tasks.length }])
            else
              rangeFrameworks frameworkRegex rest matchingFrameworks

/-- The part of `findMatchingFrameworks` after `json.Unmarshal`: lines 105-144. -/
def matchFrameworks (frameworkRegex : Regexp) (responseJson : List (String × JSON)) :
    Option (List Framework) × Option Error :=
  match assertArray (mapIndex responseJson "frameworks") with
  | none => (none, some ("frameworks node should be []interface\x7b\x7d, actual "
      ++ goTypeName (mapIndex responseJson "frameworks")))
  | some frameworks => rangeFrameworks frameworkRegex frameworks []

/-- The function `findMatchingFrameworks` of `kill.go`. -/
def findMatchingFrameworks (env : Env) (master : String) (framework : String) (w : World) :
    (Option (List Framework) × Option Error) × World :=
  match env.regexpCompile framework with
  | .error err => ((none, some err), w)
  | .ok frameworkRegex =>
    let url := "http://" ++ master ++ "/state.json"
    let w := w.emit (Event.get url)
    match env.httpGet url with
    | .error err => ((none, some err), w)
    | .ok rawResponse =>
      match rawResponse.Body with
      | .error err => ((none, some err), w)
      | .ok responseBody =>
        match env.jsonUnmarshal responseBody with
        | .error err => ((none, some err), w)
        | .ok responseJson => (matchFrameworks frameworkRegex responseJson, w)

/-- The function `killFramework` of `kill.go`. -/
def killFramework (env : Env) (master : String) (id : String) (w : World) :
    Option Error × World :=
  let url := "http://" ++ master ++ "/teardown"
  let body := "frameworkId=" ++ id
  let w1 := w.emit (Event.post url "" body)
  match env.httpPost w.trace url "" body with
  | some err => (some err, w1)
  | none => (none, w1.print ("\nKilled framework " ++ id ++ "\n"))

/-- The function `unicode.ToLower` on the rune a single byte converts to (`string(text[0])`):
in Latin-1 the upper-case letters are `A`-`Z` and `À`-`Þ` without `×`. -/
def toLowerByte (b : UInt8) : Nat :=
  let r := b.toNat
  if 65 ≤ r ∧ r ≤ 90 then r + 32
  else if 192 ≤ r ∧ r ≤ 222 ∧ r ≠ 215 then r + 32
  else r

/-- The prompt printed by `proposeKillFramework`. -/
def promptText (framework : Framework) : String :=
  "Kill framework " ++ framework.Name ++ " (ID " ++ framework.ID ++ ") with "
    ++ toString framework.Tasks ++ " tasks running? ([y]es, [n]o): "

/-- Reading one string from a fresh reader over standard input. -/
def World.readString (env : Env) (w : World) : Bytes × World :=
  (env.stdinReadString w.reads, { trace := w.trace ++ [Event.readString], reads := w.reads + 1 })

/-- The function `proposeKillFramework` of `kill.go`.  The recursion of the source is not
bounded; `fuel` bounds the number of prompts, and `Outcome.running` carries the
state reached when it is used up. -/
def proposeKillFramework (env : Env) (master : String) (framework : Framework) :
    Nat → World → Outcome (Option Error)
  | 0, w => Outcome.running w
  | fuel + 1, w =>
    let w := w.print (promptText framework)
    let (text, w) := w.readString env
    if text.length ≠ 2 then
      proposeKillFramework env master framework fuel w
    else
      match text with
      | b :: _ =>
        if toLowerByte b = 121 then
          let (err, w) := killFramework env master framework.ID w
          Outcome.ret err w
        else if toLowerByte b = 110 then
          Outcome.ret none w
        else
          proposeKillFramework env master framework fuel w
      | [] => Outcome.panic w

/-- The function `proposeKillFrameworks` of `kill.go`; every framework may prompt up to
`fuel` times. -/
def proposeKillFrameworks (env : Env) (master : String) (fuel : Nat) :
    List Framework → World → Outcome (Option Error)
  | [], w => Outcome.ret none w
  | framework :: rest, w =>
    match proposeKillFramework env master framework fuel w with
    | .ret (some err) w => Outcome.ret (some err) w
    | .ret none w => proposeKillFrameworks env master fuel rest w
    | .exit status w => Outcome.exit status w
    | .panic w => Outcome.panic w
    | .running w => Outcome.running w

/-- The function `len(frameworks)` on a slice that may be nil. -/
def sliceLen (frameworks : Option (List Framework)) : Nat :=
  match frameworks with
  | none => 0
  | some fs => fs.length

/-- The function `main` of `kill.go`.  Returning from `main` ends the process with status 0;
it is reported as `Outcome.ret ()`. -/
def main (env : Env) (fuel : Nat) (w : World) : Outcome Unit :=
  match parseArgs env w with
  | .exit status w => Outcome.exit status w
  | .panic w => Outcome.panic w
  | .running w => Outcome.running w
  | .ret (master, framework) w =>
    match findMatchingFrameworks env master framework w with
    | ((_, some err), w) => Outcome.exit 1 (w.print (err ++ "\n"))
    | ((frameworks, none), w) =>
      if sliceLen frameworks = 0 then
        Outcome.exit 0 (w.print ("No frameworks matching '" ++ framework ++ "' found.\n"))
      else
        match proposeKillFrameworks env master fuel (frameworks.getD []) w with
        | .ret (some err) w => Outcome.exit 1 (w.print (err ++ "\n"))
        | .ret none w => Outcome.ret () w
        | .exit status w => Outcome.exit status w
        | .panic w => Outcome.panic w
        | .running w => Outcome.running w

/-! ## Specification-side notions -/

/-- A well-formed framework entry: an object with a string `name`, a string
`id` and an array `tasks`. -/
def IsFrameworkObject (entry : JSON) (name id : String) (tasks : List JSON) : Prop :=
  ∃ m, entry = JSON.object m ∧ mapIndex m "name" = JSON.string name ∧
    mapIndex m "id" = JSON.string id ∧ mapIndex m "tasks" = JSON.array tasks

/-- An entry that is not an object, or lacks a string name, a string id or an
array tasks. -/
def IsMalformedEntry (entry : JSON) : Prop :=
  ¬ ∃ name id tasks, IsFrameworkObject entry name id tasks

/-- The message `msg` names a field of `entry` that has the wrong type, with
the type observed there. -/
def NamesOffendingField (entry : JSON) (msg : String) : Prop :=
  ((∀ m, entry ≠ JSON.object m) ∧
      msg = "framework node should be map[string]interface\x7b\x7d, actual " ++ goTypeName entry) ∨
  (∃ m, entry = JSON.object m ∧
    (((∀ s, mapIndex m "name" ≠ JSON.string s) ∧
        msg = "framework name node should be string, actual " ++ goTypeName (mapIndex m "name")) ∨
     ((∀ s, mapIndex m "id" ≠ JSON.string s) ∧
        msg = "framework id node should be string, actual " ++ goTypeName (mapIndex m "id")) ∨
     ((∀ xs, mapIndex m "tasks" ≠ JSON.array xs) ∧
        msg = "framework tasks node should be []interface\x7b\x7d, actual "
          ++ goTypeName (mapIndex m "tasks"))))

/-- The `Framework` built from a name, an id and a task array. -/
def frameworkOf (r : String × String × List JSON) : Framework :=
  { Name := r.1, ID := r.2.1, Tasks := r.2.2.length }

/-! ## Sample environments -/

/-- A matcher for a pattern without metacharacters: it matches the strings
that contain the pattern. -/
def literalRegexp (m : String) : Regexp :=
  { MatchString := fun s => decide (m.data <:+: s.data) }

/-- An environment with no variable set, a master that serves `doc`, a
regular-expression library that rejects the pattern `(`, a teardown endpoint
that fails for the request bodies in `failing`, and `answers` on standard
input. -/
def sampleEnv (args : List String) (doc : List (String × JSON)) (answers : List Bytes)
    (failing : List String) : Env where
  osArgs := args
  lookupEnv := fun _ => none
  regexpCompile := fun p =>
    if p = "(" then Except.error "error parsing regexp: missing closing )" else Except.ok (literalRegexp p)
  httpGet := fun _ => Except.ok { Body := Except.ok [] }
  jsonUnmarshal := fun _ => Except.ok doc
  httpPost := fun _ _ _ body => if body ∈ failing then some "connection refused" else none
  stdinReadString := fun k => answers.getD k []

/-- The framework entry of the scenario: `job-a`, id `f1`, two tasks. -/
def jobA : JSON :=
  JSON.object [("name", JSON.string "job-a"), ("id", JSON.string "f1"),
    ("tasks", JSON.array [JSON.object [], JSON.object []])]

/-- A second well-formed entry whose name does not contain `job`. -/
def webB : JSON :=
  JSON.object [("id", JSON.string "f2"), ("name", JSON.string "web-b"), ("tasks", JSON.array [])]

/-- A third well-formed entry. -/
def jobC : JSON :=
  JSON.object [("name", JSON.string "batch-job-c"), ("id", JSON.string "f3"),
    ("tasks", JSON.array [JSON.null]), ("active", JSON.bool true)]

/-- The state document of the scenario, extended by two entries. -/
def sampleDoc : List (String × JSON) :=
  [("hostname", JSON.string "m1"), ("frameworks", JSON.array [jobA, webB, jobC])]

/-- The initial world: nothing has happened. -/
def World.init : World := { trace := [], reads := 0 }

/-- A malformed entry: its id is a number. -/
def numericId : JSON :=
  JSON.object [("name", JSON.string "zzz"), ("id", JSON.number 7), ("tasks", JSON.array [])]

/-- The world after one prompt for `framework` and the read that follows it. -/
def World.prompted (w : World) (framework : Framework) : World :=
  { trace := w.trace ++ [Event.stdout (promptText framework), Event.readString],
    reads := w.reads + 1 }

/-- The events of `n` consecutive prompts for `framework`, each followed by a read. -/
def promptRounds (framework : Framework) : Nat → List Event
  | 0 => []
  | n + 1 => Event.stdout (promptText framework) :: Event.readString :: promptRounds framework n

/-- The byte is one of `y`, `Y`, `n`, `N`. -/
def IsResponseByte (b : UInt8) : Prop :=
  b = 121 ∨ b = 89 ∨ b = 110 ∨ b = 78

/-- The text read makes `proposeKillFramework` decide: exactly two bytes, the
first of which is one of `y`, `Y`, `n`, `N`. -/
def IsDecisiveRead (text : Bytes) : Prop :=
  ∃ b c, text = [b, c] ∧ IsResponseByte b

/-- A line after trimming its trailing newline, if it has one. -/
def trimNewline (text : Bytes) : Bytes :=
  if text.getLast? = some 10 then text.dropLast else text

/-- The trimmed line is exactly one character and that character is one of
`y`, `Y`, `n`, `N` (all four are single bytes). -/
def IsRecognisedResponse (line : Bytes) : Prop :=
  ∃ b, line = [b] ∧ IsResponseByte b

/-- The event is a teardown request. -/
def Event.isPost : Event → Bool
  | Event.post _ _ _ => true
  | _ => false

/-- The framework of the scenario. -/
def frameworkA : Framework := { Name := "job-a", ID := "f1", Tasks := 2 }

/-- The sample environment with the given answers on standard input. -/
def answersEnv (answers : List Bytes) : Env :=
  sampleEnv ["mesos-kill", "job"] sampleDoc answers []

/-- The URL of the teardown endpoint of `master`. -/
def teardownURL (master : String) : String :=
  "http://" ++ master ++ "/teardown"

/-- The events of a teardown of `id` on `master`: the request, and the
confirmation when the transport reported no error. -/
def teardownEvents (master id : String) (outcome : Option Error) : List Event :=
  Event.post (teardownURL master) "" ("frameworkId=" ++ id) ::
    (match outcome with
      | none => [Event.stdout ("\nKilled framework " ++ id ++ "\n")]
      | some _ => [])

/-- The frameworks of a list are handled one after the other, from the first
world to the second, every call of `proposeKillFramework` returning nil. -/
inductive HandledInOrder (env : Env) (master : String) (fuel : Nat) :
    List Framework → World → World → Prop where
  | nil (w : World) : HandledInOrder env master fuel [] w w
  | cons (framework : Framework) (rest : List Framework) (w w1 w2 : World) :
      proposeKillFramework env master framework fuel w = Outcome.ret none w1 →
      HandledInOrder env master fuel rest w1 w2 →
      HandledInOrder env master fuel (framework :: rest) w w2

/-- The four lines of the usage text. -/
def usageEvents : List Event :=
  [Event.stdout "Usage: mesos-kill [<master>] <framework-name-regex>\n",
   Event.stdout "\n",
   Event.stdout "<master>: host:port pair for Mesos Master node. If not specified will check MESOS_MASTER env and fall back to 127.0.0.1:5050 if not set\n",
   Event.stdout "<framework-name-regex>: name or regular expression of framework to kill. It is ok to match multiple frameworks\n"]

/-- A second and a third framework. -/
def frameworkB : Framework := { Name := "job-b", ID := "f2", Tasks := 0 }

def frameworkC : Framework := { Name := "job-c", ID := "f3", Tasks := 5 }

/-- An environment in which the teardown of `f2` fails. -/
def failingEnv (answers : List Bytes) : Env :=
  sampleEnv ["mesos-kill", "job"] sampleDoc answers ["frameworkId=f2"]

/-- An environment in which `MESOS_MASTER` is set to `value`, which may be the
empty string. -/
def masterEnv (value : String) (args : List String) : Env :=
  { sampleEnv args sampleDoc [] [] with
    lookupEnv := fun key => if key = "MESOS_MASTER" then some value else none }

/-! ## Discovery -/

theorem assertMap_eq_none {e : JSON} (h : ∀ m, e ≠ JSON.object m) : assertMap e = none := by
  cases e <;> first | rfl | exact absurd rfl (h _)

theorem assertString_eq_none {v : JSON} (h : ∀ s, v ≠ JSON.string s) : assertString v = none := by
  cases v <;> first | rfl | exact absurd rfl (h _)

theorem assertArray_eq_none {v : JSON} (h : ∀ xs, v ≠ JSON.array xs) : assertArray v = none := by
  cases v <;> first | rfl | exact absurd rfl (h _)

theorem assertMap_eq_some {e : JSON} {m : List (String × JSON)} (h : assertMap e = some m) :
    e = JSON.object m := by
  cases e <;> simp [assertMap] at h
  rw [h]

theorem assertString_eq_some {v : JSON} {s : String} (h : assertString v = some s) :
    v = JSON.string s := by
  cases v <;> simp [assertString] at h
  rw [h]

theorem assertArray_eq_some {v : JSON} {xs : List JSON} (h : assertArray v = some xs) :
    v = JSON.array xs := by
  cases v <;> simp [assertArray] at h
  rw [h]

/-- One round of the loop on a well-formed entry. -/
theorem rangeFrameworks_cons_wellformed (re : Regexp) (entry : JSON) (rest : List JSON)
    (acc : List Framework) (name id : String) (tasks : List JSON)
    (h : IsFrameworkObject entry name id tasks) :
    rangeFrameworks re (entry :: rest) acc =
      rangeFrameworks re rest
        (if re.MatchString name then acc ++ [frameworkOf (name, id, tasks)] else acc) := by
  obtain ⟨m, rfl, hn, hi, ht⟩ := h
  simp only [rangeFrameworks, assertMap, hn, hi, ht, assertString, assertArray, frameworkOf]
  split <;> rfl

/-- The loop on well-formed entries filters them by the matcher. -/
theorem rangeFrameworks_wellformed (re : Regexp) (entries : List JSON)
    (recs : List (String × String × List JSON))
    (h : List.Forall₂ (fun e r => IsFrameworkObject e r.1 r.2.1 r.2.2) entries recs)
    (acc : List Framework) :
    rangeFrameworks re entries acc =
      (some (acc ++ (recs.filter (fun r => re.MatchString r.1)).map frameworkOf), none) := by
  induction h generalizing acc with
  | nil => simp [rangeFrameworks]
  | @cons e r es rs hhead _ ih =>
    rw [rangeFrameworks_cons_wellformed re e es acc r.1 r.2.1 r.2.2 hhead, ih]
    by_cases hm : re.MatchString r.1 = true
    · simp [hm, List.filter_cons]
    · simp [hm, List.filter_cons]

/-- The loop stops with an error as soon as an entry is malformed. -/
theorem rangeFrameworks_malformed (re : Regexp) (entries : List JSON)
    (h : ∃ e ∈ entries, IsMalformedEntry e) (acc : List Framework) :
    (rangeFrameworks re entries acc).1 = none ∧
      ∃ e ∈ entries, ∃ msg, NamesOffendingField e msg ∧
        (rangeFrameworks re entries acc).2 = some msg := by
  induction entries generalizing acc with
  | nil => obtain ⟨e, he, _⟩ := h; cases he
  | cons e es ih =>
    cases hmap : assertMap e with
    | none =>
      have hno : ∀ m, e ≠ JSON.object m := by
        intro m hm; rw [hm] at hmap; cases hmap
      refine ⟨by simp [rangeFrameworks, hmap], e, List.mem_cons_self _ _, _, Or.inl ⟨hno, rfl⟩, ?_⟩
      simp [rangeFrameworks, hmap]
    | some m =>
      have hobj := assertMap_eq_some hmap
      cases hname : assertString (mapIndex m "name") with
      | none =>
        have hno : ∀ s, mapIndex m "name" ≠ JSON.string s := by
          intro s hs; rw [hs] at hname; cases hname
        refine ⟨by simp [rangeFrameworks, hmap, hname], e, List.mem_cons_self _ _, _,
          Or.inr ⟨m, hobj, Or.inl ⟨hno, rfl⟩⟩, ?_⟩
        simp [rangeFrameworks, hmap, hname]
      | some name =>
        cases hid : assertString (mapIndex m "id") with
        | none =>
          have hno : ∀ s, mapIndex m "id" ≠ JSON.string s := by
            intro s hs; rw [hs] at hid; cases hid
          refine ⟨by simp [rangeFrameworks, hmap, hname, hid], e, List.mem_cons_self _ _, _,
            Or.inr ⟨m, hobj, Or.inr (Or.inl ⟨hno, rfl⟩)⟩, ?_⟩
          simp [rangeFrameworks, hmap, hname, hid]
        | some id =>
          cases htasks : assertArray (mapIndex m "tasks") with
          | none =>
            have hno : ∀ xs, mapIndex m "tasks" ≠ JSON.array xs := by
              intro s hs; rw [hs] at htasks; cases htasks
            refine ⟨by simp [rangeFrameworks, hmap, hname, hid, htasks], e,
              List.mem_cons_self _ _, _,
              Or.inr ⟨m, hobj, Or.inr (Or.inr ⟨hno, rfl⟩)⟩, ?_⟩
            simp [rangeFrameworks, hmap, hname, hid, htasks]
          | some tasks =>
            have hwf : IsFrameworkObject e name id tasks :=
              ⟨m, hobj, assertString_eq_some hname, assertString_eq_some hid,
                assertArray_eq_some htasks⟩
            have hrest : ∃ e' ∈ es, IsMalformedEntry e' := by
              obtain ⟨e', he', hbad⟩ := h
              rcases List.mem_cons.mp he' with rfl | hmem
              · exact absurd ⟨name, id, tasks, hwf⟩ hbad
              · exact ⟨e', hmem, hbad⟩
            rw [rangeFrameworks_cons_wellformed re e es acc name id tasks hwf]
            obtain ⟨h1, e', he', msg, hmsg, h2⟩ := ih hrest
              (if re.MatchString name then acc ++ [frameworkOf (name, id, tasks)] else acc)
            exact ⟨h1, e', List.mem_cons_of_mem _ he', msg, hmsg, h2⟩

/-- The steps of `findMatchingFrameworks` up to the decoded document. -/
theorem findMatchingFrameworks_decoded (env : Env) (master pattern : String) (w : World)
    (re : Regexp) (resp : Response) (body : Bytes) (doc : List (String × JSON))
    (hre : env.regexpCompile pattern = Except.ok re)
    (hget : env.httpGet ("http://" ++ master ++ "/state.json") = Except.ok resp)
    (hbody : resp.Body = Except.ok body)
    (hjson : env.jsonUnmarshal body = Except.ok doc) :
    findMatchingFrameworks env master pattern w =
      (matchFrameworks re doc, w.emit (Event.get ("http://" ++ master ++ "/state.json"))) := by
  simp only [findMatchingFrameworks, hre, hget, hbody, hjson]

/-- C1: when the pattern compiles and the state document holds an array of
well-formed framework objects, `findMatchingFrameworks` returns, without error,
the frameworks whose name the compiled pattern matches, in the order of the
array, each with the name, the id and the number of tasks of its object; for a
pattern that matches exactly the names containing `M`, these are the frameworks
whose name contains `M`. -/
theorem C1_findMatchingFrameworks_filters_in_order
    (env : Env) (master pattern : String) (w : World)
    (re : Regexp) (resp : Response) (body : Bytes) (doc : List (String × JSON))
    (entries : List JSON) (recs : List (String × String × List JSON))
    (hre : env.regexpCompile pattern = Except.ok re)
    (hget : env.httpGet ("http://" ++ master ++ "/state.json") = Except.ok resp)
    (hbody : resp.Body = Except.ok body)
    (hjson : env.jsonUnmarshal body = Except.ok doc)
    (hfw : mapIndex doc "frameworks" = JSON.array entries)
    (hent : List.Forall₂ (fun e r => IsFrameworkObject e r.1 r.2.1 r.2.2) entries recs) :
    (findMatchingFrameworks env master pattern w).1 =
        (some ((recs.filter (fun r => re.MatchString r.1)).map frameworkOf), none) ∧
      ∀ M : String, (∀ s : String, re.MatchString s = true ↔ M.data <:+: s.data) →
        (findMatchingFrameworks env master pattern w).1 =
          (some ((recs.filter (fun r => decide (M.data <:+: r.1.data))).map frameworkOf), none) := by
  have hmain : (findMatchingFrameworks env master pattern w).1 =
      (some ((recs.filter (fun r => re.MatchString r.1)).map frameworkOf), none) := by
    rw [findMatchingFrameworks_decoded env master pattern w re resp body doc hre hget hbody hjson]
    simp only [matchFrameworks, hfw, assertArray]
    rw [rangeFrameworks_wellformed re entries recs hent []]
    simp
  refine ⟨hmain, ?_⟩
  intro M hM
  rw [hmain]
  have hfun : (fun r : String × String × List JSON => re.MatchString r.1) =
      (fun r => decide (M.data <:+: r.1.data)) := by
    funext r
    by_cases hr : M.data <:+: r.1.data
    · rw [(hM r.1).mpr hr]; simp [hr]
    · have : re.MatchString r.1 = false := by
        cases hb : re.MatchString r.1
        · rfl
        · exact absurd ((hM r.1).mp hb) hr
      rw [this]; simp [hr]
  rw [hfun]

/-- C1 on the sample document: pattern `job` selects `job-a` and `batch-job-c`,
in that order, with 2 and 1 tasks. -/
theorem C1_findMatchingFrameworks_filters_in_order_witness :
    (findMatchingFrameworks (sampleEnv ["mesos-kill", "job"] sampleDoc [] []) "m:5050" "job"
        World.init).1 =
      (some [{ Name := "job-a", ID := "f1", Tasks := 2 },
             { Name := "batch-job-c", ID := "f3", Tasks := 1 }], none) :=
  ((C1_findMatchingFrameworks_filters_in_order
      (sampleEnv ["mesos-kill", "job"] sampleDoc [] []) "m:5050" "job" World.init
      (literalRegexp "job") { Body := Except.ok [] } [] sampleDoc [jobA, webB, jobC]
      [("job-a", "f1", [JSON.object [], JSON.object []]), ("web-b", "f2", []),
       ("batch-job-c", "f3", [JSON.null])]
      rfl rfl rfl rfl rfl
      (List.Forall₂.cons ⟨_, rfl, rfl, rfl, rfl⟩
        (List.Forall₂.cons ⟨_, rfl, rfl, rfl, rfl⟩
          (List.Forall₂.cons ⟨_, rfl, rfl, rfl, rfl⟩ List.Forall₂.nil)))).2 "job"
      (fun _ => by simp [literalRegexp])).trans (by decide)

/-- C2: when the decoded state document has no `frameworks` key, or a value
there that is not an array, `findMatchingFrameworks` returns the nil list and
an error that names the frameworks node and the type found. -/
theorem C2_frameworks_node_not_array
    (env : Env) (master pattern : String) (w : World)
    (re : Regexp) (resp : Response) (body : Bytes) (doc : List (String × JSON))
    (hre : env.regexpCompile pattern = Except.ok re)
    (hget : env.httpGet ("http://" ++ master ++ "/state.json") = Except.ok resp)
    (hbody : resp.Body = Except.ok body)
    (hjson : env.jsonUnmarshal body = Except.ok doc)
    (hbad : ∀ xs, doc.lookup "frameworks" ≠ some (JSON.array xs)) :
    (findMatchingFrameworks env master pattern w).1 =
      (none, some ("frameworks node should be []interface\x7b\x7d, actual " ++
        goTypeName ((doc.lookup "frameworks").getD JSON.null))) := by
  rw [findMatchingFrameworks_decoded env master pattern w re resp body doc hre hget hbody hjson]
  have hno : ∀ xs, mapIndex doc "frameworks" ≠ JSON.array xs := by
    intro xs hxs
    unfold mapIndex at hxs
    cases hl : doc.lookup "frameworks" with
    | none => rw [hl] at hxs; cases hxs
    | some v =>
      rw [hl] at hxs
      simp only [Option.getD_some] at hxs
      exact hbad xs (by rw [hl, hxs])
  simp only [matchFrameworks, assertArray_eq_none hno]
  rfl

/-- C2 on a document without the key and on one whose value is an object. -/
theorem C2_frameworks_node_not_array_witness :
    (findMatchingFrameworks (sampleEnv [] [("hostname", JSON.string "m1")] [] []) "m:5050" "job"
        World.init).1 =
      (none, some "frameworks node should be []interface\x7b\x7d, actual <nil>") ∧
    (findMatchingFrameworks (sampleEnv [] [("frameworks", jobA)] [] []) "m:5050" "job"
        World.init).1 =
      (none, some
        "frameworks node should be []interface\x7b\x7d, actual map[string]interface \x7b\x7d") :=
  ⟨(C2_frameworks_node_not_array (sampleEnv [] [("hostname", JSON.string "m1")] [] [])
      "m:5050" "job" World.init (literalRegexp "job") { Body := Except.ok [] } []
      [("hostname", JSON.string "m1")] rfl rfl rfl rfl
      (fun xs h => by
        have h0 : List.lookup "frameworks" [("hostname", JSON.string "m1")] = none := by rfl
        rw [h0] at h; cases h)).trans (by decide),
   (C2_frameworks_node_not_array (sampleEnv [] [("frameworks", jobA)] [] [])
      "m:5050" "job" World.init (literalRegexp "job") { Body := Except.ok [] } []
      [("frameworks", jobA)] rfl rfl rfl rfl
      (fun xs h => by
        have h0 : List.lookup "frameworks" [("frameworks", jobA)] = some jobA := by rfl
        rw [h0] at h; cases h)).trans (by decide)⟩

/-- C3: when the frameworks array holds a malformed entry, wherever it sits,
`findMatchingFrameworks` returns the nil list and an error that names an
offending field of an entry of the array with the type observed there. -/
theorem C3_malformed_entry_aborts
    (env : Env) (master pattern : String) (w : World)
    (re : Regexp) (resp : Response) (body : Bytes) (doc : List (String × JSON))
    (entries : List JSON)
    (hre : env.regexpCompile pattern = Except.ok re)
    (hget : env.httpGet ("http://" ++ master ++ "/state.json") = Except.ok resp)
    (hbody : resp.Body = Except.ok body)
    (hjson : env.jsonUnmarshal body = Except.ok doc)
    (hfw : mapIndex doc "frameworks" = JSON.array entries)
    (hbad : ∃ e ∈ entries, IsMalformedEntry e) :
    (findMatchingFrameworks env master pattern w).1.1 = none ∧
      ∃ e ∈ entries, ∃ msg, NamesOffendingField e msg ∧
        (findMatchingFrameworks env master pattern w).1.2 = some msg := by
  rw [findMatchingFrameworks_decoded env master pattern w re resp body doc hre hget hbody hjson]
  simp only [matchFrameworks, hfw, assertArray]
  exact rangeFrameworks_malformed re entries hbad []

/-- C3 on an array whose first entry is well-formed and matches and whose
second entry has a numeric id and a name that does not match. -/
theorem C3_malformed_entry_aborts_witness :
    ((findMatchingFrameworks (sampleEnv [] [("frameworks", JSON.array [jobA, numericId])] [] [])
        "m:5050" "job" World.init).1.1 = none ∧
      ∃ e ∈ [jobA, numericId], ∃ msg, NamesOffendingField e msg ∧
        (findMatchingFrameworks (sampleEnv [] [("frameworks", JSON.array [jobA, numericId])] [] [])
          "m:5050" "job" World.init).1.2 = some msg) ∧
    (findMatchingFrameworks (sampleEnv [] [("frameworks", JSON.array [jobA, numericId])] [] [])
        "m:5050" "job" World.init).1 =
      (none, some "framework id node should be string, actual float64") :=
  ⟨C3_malformed_entry_aborts (sampleEnv [] [("frameworks", JSON.array [jobA, numericId])] [] [])
    "m:5050" "job" World.init (literalRegexp "job") { Body := Except.ok [] } []
    [("frameworks", JSON.array [jobA, numericId])] [jobA, numericId] rfl rfl rfl rfl rfl
    ⟨numericId, by simp, by
      rintro ⟨n, i, t, m, hm, _, hid, _⟩
      unfold numericId at hm
      cases hm
      have h0 : mapIndex [("name", JSON.string "zzz"), ("id", JSON.number 7),
          ("tasks", JSON.array [])] "id" = JSON.number 7 := rfl
      rw [h0] at hid
      cases hid⟩, by decide⟩

/-! ## Prompting -/

theorem toLowerByte_eq_y (b : UInt8) : toLowerByte b = 121 ↔ (b = 121 ∨ b = 89) := by
  constructor
  · intro h
    have hb : b.toNat = 121 ∨ b.toNat = 89 := by
      unfold toLowerByte at h
      simp only at h
      split at h
      · right; omega
      · split at h
        · omega
        · left; exact h
    rcases hb with hb | hb
    · left; exact UInt8.ext (by simpa using hb)
    · right; exact UInt8.ext (by simpa using hb)
  · rintro (rfl | rfl) <;> decide

theorem toLowerByte_eq_n (b : UInt8) : toLowerByte b = 110 ↔ (b = 110 ∨ b = 78) := by
  constructor
  · intro h
    have hb : b.toNat = 110 ∨ b.toNat = 78 := by
      unfold toLowerByte at h
      simp only at h
      split at h
      · right; omega
      · split at h
        · omega
        · left; exact h
    rcases hb with hb | hb
    · left; exact UInt8.ext (by simpa using hb)
    · right; exact UInt8.ext (by simpa using hb)
  · rintro (rfl | rfl) <;> decide

/-- A read that is not decisive leads to the next prompt for the same framework. -/
theorem proposeKillFramework_retry (env : Env) (master : String) (framework : Framework)
    (fuel : Nat) (w : World) (h : ¬ IsDecisiveRead (env.stdinReadString w.reads)) :
    proposeKillFramework env master framework (fuel + 1) w =
      proposeKillFramework env master framework fuel (w.prompted framework) := by
  simp only [proposeKillFramework, World.readString, World.print, World.emit, World.prompted,
    List.append_assoc, List.singleton_append]
  split
  · rfl
  · rename_i hlen
    have hlen2 : (env.stdinReadString w.reads).length = 2 := by
      simpa using hlen
    match htext : env.stdinReadString w.reads, hlen2 with
    | [b, c], _ =>
      simp only
      have hy : ¬ toLowerByte b = 121 := by
        intro hb
        exact h ⟨b, c, htext, by
          rcases (toLowerByte_eq_y b).mp hb with hb | hb
          · exact Or.inl hb
          · exact Or.inr (Or.inl hb)⟩
      have hn : ¬ toLowerByte b = 110 := by
        intro hb
        exact h ⟨b, c, htext, by
          rcases (toLowerByte_eq_n b).mp hb with hb | hb
          · exact Or.inr (Or.inr (Or.inl hb))
          · exact Or.inr (Or.inr (Or.inr hb))⟩
      simp [hy, hn]

/-- A two-byte read that starts with `y` or `Y` posts the teardown. -/
theorem proposeKillFramework_yes (env : Env) (master : String) (framework : Framework)
    (fuel : Nat) (w : World) (b c : UInt8) (htext : env.stdinReadString w.reads = [b, c])
    (hb : b = 121 ∨ b = 89) :
    proposeKillFramework env master framework (fuel + 1) w =
      Outcome.ret (killFramework env master framework.ID (w.prompted framework)).1
        (killFramework env master framework.ID (w.prompted framework)).2 := by
  have hy : toLowerByte b = 121 := (toLowerByte_eq_y b).mpr hb
  simp [proposeKillFramework, World.readString, World.print, World.emit, World.prompted,
    htext, hy]

/-- A two-byte read that starts with `n` or `N` returns nil without a request. -/
theorem proposeKillFramework_no (env : Env) (master : String) (framework : Framework)
    (fuel : Nat) (w : World) (b c : UInt8) (htext : env.stdinReadString w.reads = [b, c])
    (hb : b = 110 ∨ b = 78) :
    proposeKillFramework env master framework (fuel + 1) w =
      Outcome.ret none (w.prompted framework) := by
  have hn : toLowerByte b = 110 := (toLowerByte_eq_n b).mpr hb
  have hy : ¬ toLowerByte b = 121 := by rw [hn]; decide
  simp [proposeKillFramework, World.readString, World.print, World.emit, World.prompted,
    htext, hy, hn]

/-- What `killFramework` returns and leaves behind. -/
theorem killFramework_eq (env : Env) (master id : String) (w : World) :
    killFramework env master id w =
      (env.httpPost w.trace ("http://" ++ master ++ "/teardown") "" ("frameworkId=" ++ id),
        { trace := w.trace ++
            Event.post ("http://" ++ master ++ "/teardown") "" ("frameworkId=" ++ id) ::
              (match env.httpPost w.trace ("http://" ++ master ++ "/teardown") ""
                  ("frameworkId=" ++ id) with
                | none => [Event.stdout ("\nKilled framework " ++ id ++ "\n")]
                | some _ => []),
          reads := w.reads }) := by
  unfold killFramework
  cases h : env.httpPost w.trace ("http://" ++ master ++ "/teardown") "" ("frameworkId=" ++ id)
    <;> simp [World.emit, World.print, h]

/-- C4: when the line read is `y` or `Y` followed by a newline, the only
request is one POST to `http://<master>/teardown` with empty content type and
body `frameworkId=<id>`, and its outcome is returned; when it is `n` or `N`
followed by a newline, no request is made and nil is returned. -/
theorem C4_recognised_line_decides (env : Env) (master : String) (framework : Framework)
    (fuel : Nat) (w : World) (c : UInt8)
    (hline : env.stdinReadString w.reads = [c, 10]) :
    ((c = 121 ∨ c = 89) →
      proposeKillFramework env master framework (fuel + 1) w =
        Outcome.ret
          (env.httpPost (w.prompted framework).trace (teardownURL master) ""
            ("frameworkId=" ++ framework.ID))
          { trace := w.trace ++ [Event.stdout (promptText framework), Event.readString] ++
              teardownEvents master framework.ID
                (env.httpPost (w.prompted framework).trace (teardownURL master) ""
                  ("frameworkId=" ++ framework.ID)),
            reads := w.reads + 1 }) ∧
    ((c = 110 ∨ c = 78) →
      proposeKillFramework env master framework (fuel + 1) w =
        Outcome.ret none
          { trace := w.trace ++ [Event.stdout (promptText framework), Event.readString],
            reads := w.reads + 1 }) := by
  constructor
  · intro hc
    rw [proposeKillFramework_yes env master framework fuel w c 10 hline hc, killFramework_eq]
    rfl
  · intro hc
    rw [proposeKillFramework_no env master framework fuel w c 10 hline hc]
    rfl

/-- C4 on the scenario: `y` posts `frameworkId=f1` once and reports the kill. -/
theorem C4_recognised_line_decides_witness :
    proposeKillFramework (answersEnv [[121, 10]]) "m:5050" frameworkA 1 World.init =
      Outcome.ret none
        { trace := [Event.stdout "Kill framework job-a (ID f1) with 2 tasks running? ([y]es, [n]o): ",
            Event.readString,
            Event.post "http://m:5050/teardown" "" "frameworkId=f1",
            Event.stdout "\nKilled framework f1\n"],
          reads := 1 } ∧
    proposeKillFramework (answersEnv [[78, 10]]) "m:5050" frameworkA 1 World.init =
      Outcome.ret none
        { trace := [Event.stdout "Kill framework job-a (ID f1) with 2 tasks running? ([y]es, [n]o): ",
            Event.readString],
          reads := 1 } :=
  ⟨((C4_recognised_line_decides (answersEnv [[121, 10]]) "m:5050" frameworkA 0 World.init 121
      rfl).1 (Or.inl rfl)).trans (by decide),
   ((C4_recognised_line_decides (answersEnv [[78, 10]]) "m:5050" frameworkA 0 World.init 78
      rfl).2 (Or.inr rfl)).trans (by decide)⟩

/-- As long as no read is decisive, `proposeKillFramework` keeps prompting. -/
theorem proposeKillFramework_running (env : Env) (master : String) (framework : Framework)
    (n : Nat) (w : World)
    (h : ∀ k, k < n → ¬ IsDecisiveRead (env.stdinReadString (w.reads + k))) :
    proposeKillFramework env master framework n w =
      Outcome.running { trace := w.trace ++ promptRounds framework n, reads := w.reads + n } := by
  induction n generalizing w with
  | zero => simp [proposeKillFramework, promptRounds]
  | succ n ih =>
    rw [proposeKillFramework_retry env master framework n w (h 0 (Nat.succ_pos n)), ih]
    · simp [World.prompted, promptRounds, Nat.add_assoc, Nat.add_comm 1 n]
    · intro k hk
      have := h (k + 1) (Nat.succ_lt_succ hk)
      simpa [World.prompted, Nat.add_assoc, Nat.add_comm 1 k] using this

/-- A call that returns has met a decisive read. -/
theorem proposeKillFramework_ret_decisive (env : Env) (master : String) (framework : Framework)
    (fuel : Nat) (w : World) (r : Option Error) (w' : World)
    (h : proposeKillFramework env master framework fuel w = Outcome.ret r w') :
    ∃ k, IsDecisiveRead (env.stdinReadString (w.reads + k)) := by
  by_contra hno
  have hall : ∀ k, k < fuel → ¬ IsDecisiveRead (env.stdinReadString (w.reads + k)) :=
    fun k _ hk => hno ⟨k, hk⟩
  rw [proposeKillFramework_running env master framework fuel w hall] at h
  cases h

theorem promptRounds_count (framework : Framework) (n : Nat) :
    (promptRounds framework n).count (Event.stdout (promptText framework)) = n := by
  induction n with
  | zero => rfl
  | succ n ih => simp [promptRounds, List.count_cons, ih]

theorem promptRounds_no_post (framework : Framework) (n : Nat) :
    ∀ e ∈ promptRounds framework n, e.isPost = false := by
  induction n with
  | zero => intro e he; cases he
  | succ n ih =>
    intro e he
    simp only [promptRounds, List.mem_cons] at he
    rcases he with rfl | rfl | he
    · rfl
    · rfl
    · exact ih e he

theorem not_isDecisiveRead_nil : ¬ IsDecisiveRead [] := by
  rintro ⟨b, c, h, _⟩
  cases h

/-- C5 as stated fails: the unterminated text `yz` is, after trimming, not a
single recognised character, yet it is taken as a confirmation and the
teardown is posted instead of a new prompt. -/
theorem C5_unterminated_text_counterexample :
    ¬ IsRecognisedResponse (trimNewline [121, 122]) ∧
    proposeKillFramework (answersEnv [[121, 122]]) "m:5050" frameworkA 1 World.init ≠
      proposeKillFramework (answersEnv [[121, 122]]) "m:5050" frameworkA 0
        (World.init.prompted frameworkA) ∧
    proposeKillFramework (answersEnv [[121, 122]]) "m:5050" frameworkA 1 World.init =
      Outcome.ret none
        { trace := [Event.stdout "Kill framework job-a (ID f1) with 2 tasks running? ([y]es, [n]o): ",
            Event.readString,
            Event.post "http://m:5050/teardown" "" "frameworkId=f1",
            Event.stdout "\nKilled framework f1\n"],
          reads := 1 } := by
  refine ⟨?_, by decide, by decide⟩
  rintro ⟨b, h, _⟩
  have h0 : trimNewline [121, 122] = [121, 122] := by decide
  rw [h0] at h
  cases h

/-- C5, amended: a read that is not exactly two bytes starting with `y`, `Y`,
`n` or `N` issues no request and leads to a new prompt for the same framework;
for a text that ends in a newline this is the case whenever the trimmed line is
not a single recognised character; and for the lines `x` then `y` there is
exactly one more prompt, followed by the teardown of the `y` case. -/
theorem C5_unrecognised_read_reprompts (env : Env) (master : String) (framework : Framework)
    (fuel : Nat) (w : World) :
    (¬ IsDecisiveRead (env.stdinReadString w.reads) →
      proposeKillFramework env master framework (fuel + 1) w =
        proposeKillFramework env master framework fuel
          { trace := w.trace ++ [Event.stdout (promptText framework), Event.readString],
            reads := w.reads + 1 }) ∧
    ((env.stdinReadString w.reads).getLast? = some 10 →
      ¬ IsRecognisedResponse (trimNewline (env.stdinReadString w.reads)) →
      proposeKillFramework env master framework (fuel + 1) w =
        proposeKillFramework env master framework fuel
          { trace := w.trace ++ [Event.stdout (promptText framework), Event.readString],
            reads := w.reads + 1 }) ∧
    (env.stdinReadString w.reads = [120, 10] → env.stdinReadString (w.reads + 1) = [121, 10] →
      proposeKillFramework env master framework (fuel + 2) w =
        Outcome.ret
          (env.httpPost (w.trace ++ promptRounds framework 2) (teardownURL master) ""
            ("frameworkId=" ++ framework.ID))
          { trace := w.trace ++ promptRounds framework 2 ++
              teardownEvents master framework.ID
                (env.httpPost (w.trace ++ promptRounds framework 2) (teardownURL master) ""
                  ("frameworkId=" ++ framework.ID)),
            reads := w.reads + 2 }) := by
  refine ⟨fun h => proposeKillFramework_retry env master framework fuel w h, ?_, ?_⟩
  · intro hlast hnot
    apply proposeKillFramework_retry env master framework fuel w
    rintro ⟨b, c, htext, hb⟩
    rw [htext] at hlast hnot
    have hc : c = 10 := by simpa using hlast
    subst hc
    exact hnot ⟨b, by simp [trimNewline], hb⟩
  · intro hx hy
    have hnot : ¬ IsDecisiveRead (env.stdinReadString w.reads) := by
      rw [hx]
      rintro ⟨b, c, h, hb⟩
      cases h
      rcases hb with hb | hb | hb | hb <;> exact absurd hb (by decide)
    rw [proposeKillFramework_retry env master framework (fuel + 1) w hnot,
      proposeKillFramework_yes env master framework fuel (w.prompted framework) 121 10
        (by simpa [World.prompted] using hy) (Or.inl rfl), killFramework_eq]
    simp [World.prompted, promptRounds, teardownEvents, teardownURL]


/-- C5 amended, on the scenario: `x` then `y` gives two prompts, then the
teardown of `f1`. -/
theorem C5_unrecognised_read_reprompts_witness :
    proposeKillFramework (answersEnv [[120, 10], [121, 10]]) "m:5050" frameworkA 2 World.init =
      Outcome.ret none
        { trace := [Event.stdout "Kill framework job-a (ID f1) with 2 tasks running? ([y]es, [n]o): ",
            Event.readString,
            Event.stdout "Kill framework job-a (ID f1) with 2 tasks running? ([y]es, [n]o): ",
            Event.readString,
            Event.post "http://m:5050/teardown" "" "frameworkId=f1",
            Event.stdout "\nKilled framework f1\n"],
          reads := 2 } :=
  ((C5_unrecognised_read_reprompts (answersEnv [[120, 10], [121, 10]]) "m:5050" frameworkA 0
      World.init).2.2 rfl rfl).trans (by decide)

/-- C10: `proposeKillFramework` returns only if some read is exactly two bytes
starting with `y`, `Y`, `n` or `N`; when every read returns the empty string
it never returns, and for every `n` it is still running after `n + 1` prompts,
none of its events being a teardown request. -/
theorem C10_exhausted_input_prompts_forever (env : Env) (master : String)
    (framework : Framework) (w : World) :
    (∀ fuel r w', proposeKillFramework env master framework fuel w = Outcome.ret r w' →
      ∃ k, IsDecisiveRead (env.stdinReadString (w.reads + k))) ∧
    ((∀ k, env.stdinReadString (w.reads + k) = []) →
      (∀ fuel r w', proposeKillFramework env master framework fuel w ≠ Outcome.ret r w') ∧
      ∀ n, proposeKillFramework env master framework (n + 1) w =
            Outcome.running
              { trace := w.trace ++ promptRounds framework (n + 1), reads := w.reads + (n + 1) } ∧
          n < (promptRounds framework (n + 1)).count (Event.stdout (promptText framework)) ∧
          ∀ e ∈ promptRounds framework (n + 1), e.isPost = false) := by
  refine ⟨fun fuel r w' h => proposeKillFramework_ret_decisive env master framework fuel w r w' h,
    fun hempty => ⟨?_, ?_⟩⟩
  · intro fuel r w' h
    obtain ⟨k, hk⟩ := proposeKillFramework_ret_decisive env master framework fuel w r w' h
    rw [hempty k] at hk
    exact not_isDecisiveRead_nil hk
  · intro n
    refine ⟨?_, ?_, promptRounds_no_post framework (n + 1)⟩
    · apply proposeKillFramework_running
      intro k _
      rw [hempty k]
      exact not_isDecisiveRead_nil
    · rw [promptRounds_count]
      exact Nat.lt_succ_self n

/-- C10 on empty standard input: after three prompts the call is still running. -/
theorem C10_exhausted_input_prompts_forever_witness :
    proposeKillFramework (answersEnv []) "m:5050" frameworkA 3 World.init =
      Outcome.running
        { trace := [Event.stdout "Kill framework job-a (ID f1) with 2 tasks running? ([y]es, [n]o): ",
            Event.readString,
            Event.stdout "Kill framework job-a (ID f1) with 2 tasks running? ([y]es, [n]o): ",
            Event.readString,
            Event.stdout "Kill framework job-a (ID f1) with 2 tasks running? ([y]es, [n]o): ",
            Event.readString],
          reads := 3 } :=
  ((((C10_exhausted_input_prompts_forever (answersEnv []) "m:5050" frameworkA World.init).2
      (fun k => by simp [answersEnv, sampleEnv])).2 2).1).trans (by decide)

/-! ## The teardown loop -/

/-- Frameworks that are handled without error are passed over by the loop. -/
theorem proposeKillFrameworks_append (env : Env) (master : String) (fuel : Nat)
    (pre rest : List Framework) (w wi : World)
    (h : HandledInOrder env master fuel pre w wi) :
    proposeKillFrameworks env master fuel (pre ++ rest) w =
      proposeKillFrameworks env master fuel rest wi := by
  induction h with
  | nil w => rfl
  | cons framework tl w w1 w2 hcall _ ih =>
    simp only [List.cons_append, proposeKillFrameworks, hcall]
    exact ih

/-- C6: the frameworks are handled in list order; when the frameworks before
position `i` have been handled and the teardown at position `i` fails, the
loop returns that error in the world that call left, whatever follows in the
list; when every framework is handled without error it returns nil in the
world the last call left. -/
theorem C6_teardown_loop_fails_fast (env : Env) (master : String) (fuel : Nat) (w : World) :
    (∀ (pre : List Framework) (framework : Framework) (post : List Framework)
        (wi w' : World) (err : Error),
      HandledInOrder env master fuel pre w wi →
      proposeKillFramework env master framework fuel wi = Outcome.ret (some err) w' →
      proposeKillFrameworks env master fuel (pre ++ framework :: post) w =
        Outcome.ret (some err) w') ∧
    (∀ (frameworks : List Framework) (w' : World),
      HandledInOrder env master fuel frameworks w w' →
      proposeKillFrameworks env master fuel frameworks w = Outcome.ret none w') := by
  constructor
  · intro pre framework post wi w' err hpre hfail
    rw [proposeKillFrameworks_append env master fuel pre (framework :: post) w wi hpre]
    simp only [proposeKillFrameworks, hfail]
  · intro frameworks w' h
    have := proposeKillFrameworks_append env master fuel frameworks [] w w' h
    rw [List.append_nil] at this
    rw [this]
    rfl

/-- C6 on three frameworks, all confirmed, where the teardown of the second
fails: the error is returned and the third framework is never prompted. -/
theorem C6_teardown_loop_fails_fast_witness :
    proposeKillFrameworks (failingEnv [[121, 10], [89, 10], [121, 10]]) "m:5050" 1
        [frameworkA, frameworkB, frameworkC] World.init =
      Outcome.ret (some "connection refused")
        { trace := [Event.stdout "Kill framework job-a (ID f1) with 2 tasks running? ([y]es, [n]o): ",
            Event.readString,
            Event.post "http://m:5050/teardown" "" "frameworkId=f1",
            Event.stdout "\nKilled framework f1\n",
            Event.stdout "Kill framework job-b (ID f2) with 0 tasks running? ([y]es, [n]o): ",
            Event.readString,
            Event.post "http://m:5050/teardown" "" "frameworkId=f2"],
          reads := 2 } :=
  (C6_teardown_loop_fails_fast (failingEnv [[121, 10], [89, 10], [121, 10]]) "m:5050" 1
      World.init).1 [frameworkA] frameworkB [frameworkC]
    { trace := [Event.stdout "Kill framework job-a (ID f1) with 2 tasks running? ([y]es, [n]o): ",
        Event.readString,
        Event.post "http://m:5050/teardown" "" "frameworkId=f1",
        Event.stdout "\nKilled framework f1\n"],
      reads := 1 }
    _ "connection refused"
    (HandledInOrder.cons frameworkA [] _ _ _ (by decide) (HandledInOrder.nil _))
    (by decide)

/-! ## Arguments -/

theorem parseArgs_ret_world (env : Env) (w w' : World) (r : String × String)
    (h : parseArgs env w = Outcome.ret r w') : w' = w := by
  unfold parseArgs at h
  simp only at h
  split at h
  · simp [printUsageAndExit] at h
  · split at h
    · split at h
      · injection h with _ hw; exact hw.symm
      · cases h
    · split at h
      · injection h with _ hw; exact hw.symm
      · cases h

/-- C7 as stated fails: with one extra argument and `MESOS_MASTER` set to the
empty string the master is the default, not the value of the variable. -/
theorem C7_empty_variable_counterexample :
    (masterEnv "" ["mesos-kill", "job"]).lookupEnv mesosMasterEnv = some "" ∧
    parseArgs (masterEnv "" ["mesos-kill", "job"]) World.init =
      Outcome.ret ("127.0.0.1:5050", "job") World.init ∧
    parseArgs (masterEnv "" ["mesos-kill", "job"]) World.init ≠
      Outcome.ret ("", "job") World.init := by
  refine ⟨by decide, by decide, by decide⟩

/-- C7, amended: without an extra argument `parseArgs` prints the usage and
exits with status 1; with one extra argument `a` the filter is `a` and the
master is the value of `MESOS_MASTER`, or `127.0.0.1:5050` when the variable is
not set or is empty; with two extra arguments `h` and `a` the master is `h` and
the filter is `a`, whatever the environment holds. -/
theorem C7_parseArgs_resolves (env : Env) (w : World) :
    (∀ p, env.osArgs = [p] →
      parseArgs env w =
        Outcome.exit 1 { trace := w.trace ++ usageEvents, reads := w.reads }) ∧
    (∀ p a, env.osArgs = [p, a] →
      parseArgs env w =
        Outcome.ret
          ((match env.lookupEnv "MESOS_MASTER" with
            | some value => if value = "" then "127.0.0.1:5050" else value
            | none => "127.0.0.1:5050"), a) w) ∧
    (∀ p h a, env.osArgs = [p, h, a] → parseArgs env w = Outcome.ret (h, a) w) := by
  refine ⟨?_, ?_, ?_⟩
  · intro p hargs
    simp [parseArgs, hargs, printUsageAndExit, World.print, World.emit, usageEvents]
    decide
  · intro p a hargs
    cases henv : env.lookupEnv "MESOS_MASTER" with
    | none =>
      simp [parseArgs, hargs, osGetenv, mesosMasterEnv, henv, defaultMasterLocation]
    | some value =>
      by_cases hv : value = ""
      · simp [parseArgs, hargs, osGetenv, mesosMasterEnv, henv, defaultMasterLocation, hv]
      · simp [parseArgs, hargs, osGetenv, mesosMasterEnv, henv, defaultMasterLocation, hv]
  · intro p h a hargs
    simp [parseArgs, hargs]

/-- C7 amended, on three argument vectors. -/
theorem C7_parseArgs_resolves_witness :
    parseArgs (masterEnv "10.0.0.1:5050" ["mesos-kill"]) World.init =
      Outcome.exit 1 { trace := usageEvents, reads := 0 } ∧
    parseArgs (masterEnv "10.0.0.1:5050" ["mesos-kill", "job"]) World.init =
      Outcome.ret ("10.0.0.1:5050", "job") World.init ∧
    parseArgs (masterEnv "10.0.0.1:5050" ["mesos-kill", "m:5050", "job"]) World.init =
      Outcome.ret ("m:5050", "job") World.init :=
  ⟨((C7_parseArgs_resolves (masterEnv "10.0.0.1:5050" ["mesos-kill"]) World.init).1
      "mesos-kill" rfl).trans (by decide),
   ((C7_parseArgs_resolves (masterEnv "10.0.0.1:5050" ["mesos-kill", "job"]) World.init).2.1
      "mesos-kill" "job" rfl).trans (by decide),
   (C7_parseArgs_resolves (masterEnv "10.0.0.1:5050" ["mesos-kill", "m:5050", "job"])
      World.init).2.2 "mesos-kill" "m:5050" "job" rfl⟩

/-! ## The whole program -/

/-- A discovery that returns no error has issued the GET and nothing else. -/
theorem findMatchingFrameworks_world (env : Env) (master pattern : String) (w : World)
    (h : (findMatchingFrameworks env master pattern w).1.2 = none) :
    (findMatchingFrameworks env master pattern w).2 =
      w.emit (Event.get ("http://" ++ master ++ "/state.json")) := by
  unfold findMatchingFrameworks at h ⊢
  cases hre : env.regexpCompile pattern with
  | error err => simp [hre] at h
  | ok re =>
    simp only [hre] at h ⊢
    cases hget : env.httpGet ("http://" ++ master ++ "/state.json") with
    | error err => simp [hget] at h
    | ok resp =>
      simp only [hget] at h ⊢
      cases hbody : resp.Body with
      | error err => simp [hbody] at h
      | ok body =>
        simp only [hbody] at h ⊢
        cases hjson : env.jsonUnmarshal body with
        | error err => simp [hjson] at h
        | ok doc => rfl

/-- C8: when the arguments resolve to a master and a pattern for which
discovery returns an empty list and no error, `main` ends with status 0, and
all it has done is the GET of the state document and the printing of the
message that no framework matches: no read of standard input, no teardown. -/
theorem C8_no_match_exits_zero (env : Env) (fuel : Nat) (w w' : World)
    (master pattern : String)
    (hargs : parseArgs env w = Outcome.ret (master, pattern) w')
    (hfind : (findMatchingFrameworks env master pattern w').1 = (some [], none)) :
    main env fuel w =
      Outcome.exit 0
        { trace := w.trace ++ [Event.get ("http://" ++ master ++ "/state.json"),
            Event.stdout ("No frameworks matching '" ++ pattern ++ "' found.\n")],
          reads := w.reads } := by
  have hw : w' = w := parseArgs_ret_world env w w' (master, pattern) hargs
  subst hw
  have hworld := findMatchingFrameworks_world env master pattern w' (by rw [hfind])
  have hres : findMatchingFrameworks env master pattern w' =
      ((some [], none), w'.emit (Event.get ("http://" ++ master ++ "/state.json"))) := by
    rw [← hworld, ← hfind]
  simp [main, hargs, hres, sliceLen, World.print, World.emit]

/-- C8 on the sample document and a pattern that matches no name. -/
theorem C8_no_match_exits_zero_witness :
    main (sampleEnv ["mesos-kill", "m:5050", "spark"] sampleDoc [[121, 10]] []) 1 World.init =
      Outcome.exit 0
        { trace := [Event.get "http://m:5050/state.json",
            Event.stdout "No frameworks matching 'spark' found.\n"],
          reads := 0 } :=
  (C8_no_match_exits_zero (sampleEnv ["mesos-kill", "m:5050", "spark"] sampleDoc [[121, 10]] [])
    1 World.init World.init "m:5050" "spark" (by decide) (by decide)).trans (by decide)

/-- C9: when the pattern does not compile, `findMatchingFrameworks` returns
the nil list and the compile error and leaves the world as it was (no GET, no
POST); `main`, once the arguments resolve to that pattern, prints the error
and ends with status 1. -/
theorem C9_invalid_pattern_fails_first (env : Env) (fuel : Nat) (w : World)
    (master pattern : String) (err : Error)
    (hbad : env.regexpCompile pattern = Except.error err) :
    findMatchingFrameworks env master pattern w = ((none, some err), w) ∧
    ∀ w', parseArgs env w = Outcome.ret (master, pattern) w' →
      main env fuel w =
        Outcome.exit 1 { trace := w.trace ++ [Event.stdout (err ++ "\n")], reads := w.reads } := by
  have hfind : ∀ w0, findMatchingFrameworks env master pattern w0 = ((none, some err), w0) := by
    intro w0
    simp only [findMatchingFrameworks, hbad]
  refine ⟨hfind w, ?_⟩
  intro w' hargs
  have hw : w' = w := parseArgs_ret_world env w w' (master, pattern) hargs
  subst hw
  simp [main, hargs, hfind, World.print, World.emit]

/-- C9 on the pattern `(`: nothing is requested and the status is 1. -/
theorem C9_invalid_pattern_fails_first_witness :
    findMatchingFrameworks (sampleEnv ["mesos-kill", "("] sampleDoc [] []) "127.0.0.1:5050" "("
        World.init =
      ((none, some "error parsing regexp: missing closing )"), World.init) ∧
    main (sampleEnv ["mesos-kill", "("] sampleDoc [] []) 1 World.init =
      Outcome.exit 1
        { trace := [Event.stdout "error parsing regexp: missing closing )\n"], reads := 0 } :=
  ⟨(C9_invalid_pattern_fails_first (sampleEnv ["mesos-kill", "("] sampleDoc [] []) 1 World.init
      "127.0.0.1:5050" "(" "error parsing regexp: missing closing )" rfl).1,
   ((C9_invalid_pattern_fails_first (sampleEnv ["mesos-kill", "("] sampleDoc [] []) 1 World.init
      "127.0.0.1:5050" "(" "error parsing regexp: missing closing )" rfl).2 World.init
      (by decide)).trans (by decide)⟩


end MesosKill
